import Mathlib

/- Shallow embedding of the notification pipeline core of the
   prometheus-alertmanager fork, file src/notify/notify.go.

   Go slices are List, a nil slice is [], uint64 hashes are Nat,
   time.Duration / redis TTLs are Nat ticks, timestamps are Int.
   The logger is dropped (logging has no effect on any return value). -/

/-- Model of types.Alert as read by the pipeline: `resolved` is the value of
a.Resolved() (equivalently a.Status() == model.AlertResolved) at the time of
the run; `stage`, `ruleUID` and the mutable `sentCount` mirror the fields
src/notify/notify.go touches. -/
structure Alert where
  resolved : Bool
  stage : String
  ruleUID : String
  sentCount : Int
deriving Repr, DecidableEq, Inhabited

/-- Timestamps handed to the time-interval stages (notify.go keyNow). -/
abbrev Time := Int

/-- Model of context.Context as populated by the With* helpers of notify.go
(lines 141-187): one optional field per typed key. -/
structure Ctx where
  groupKey? : Option String
  repeatInterval? : Option Nat
  firingAlerts? : Option (List Nat)
  resolvedAlerts? : Option (List Nat)
  ruleUID? : Option String
  muteNames? : Option (List String)
  activeNames? : Option (List String)
  now? : Option Time
deriving Repr, DecidableEq, Inhabited

/-- Model of Go error values produced by the pipeline: errors.New / Errorf
(`plain`), ctx.Err() (`ctxErr`), errors.Wrapf (`wrap`), types.MultiError
(`multi`). -/
inductive Err where
  | plain (msg : String)
  | ctxErr
  | wrap (msg : String) (cause : Err)
  | multi (errs : List Err)
deriving Repr

/-- A Stage (notify.go line 258): Exec takes a context and an alert batch and
returns a context, a batch and an optional error. -/
abbrev StageFn := Ctx → List Alert → Ctx × List Alert × Option Err

/-- MultiStage.Exec (notify.go lines 417-430): runs the stages sequentially,
returning (ctx, nil, nil) as soon as the working batch is empty and
(ctx, nil, err) as soon as a stage errors. -/
def MultiStage.exec : List StageFn → Ctx → List Alert → Ctx × List Alert × Option Err
  | [], ctx, alerts => (ctx, alerts, none)
  | s :: rest, ctx, alerts =>
    if alerts.isEmpty then (ctx, [], none)
    else
      match s ctx alerts with
      | (ctx', _, some e) => (ctx', [], some e)
      | (ctx', alerts', none) => MultiStage.exec rest ctx' alerts'

/-- FanoutStage.Exec (notify.go lines 437-459): every substage gets the same
context and batch; errors are aggregated into a MultiError. The local slice
`as` is declared and never assigned in the source, so the returned alert list
is always nil. The source runs the substages concurrently; with pure stage
functions only the aggregation order of the errors depends on the schedule,
and we fix program order. -/
def FanoutStage.exec (fs : List StageFn) (ctx : Ctx) (alerts : List Alert) :
    Ctx × List Alert × Option Err :=
  let me := fs.foldl
    (fun acc s =>
      match s ctx alerts with
      | (_, _, some e) => acc ++ [e]
      | (_, _, none) => acc)
    ([] : List Err)
  let as : List Alert := []
  if me.length > 0 then (ctx, as, some (.multi me)) else (ctx, as, none)

/-- Concrete alert used in counterexamples and witnesses. -/
def alertW : Alert := { resolved := false, stage := "active", ruleUID := "r1", sentCount := 0 }

/-- Concrete empty context used in counterexamples and witnesses. -/
def ctxW : Ctx := { groupKey? := none, repeatInterval? := none, firingAlerts? := none,
                    resolvedAlerts? := none, ruleUID? := none, muteNames? := none,
                    activeNames? := none, now? := none }

/-- A stage that fails with a fixed error while passing its inputs through,
as TimeMuteStage does on a bad interval name. -/
def errStageW : StageFn := fun ctx alerts => (ctx, alerts, some (.plain "boom"))

/-- A stage that succeeds returning its inputs unchanged. -/
def okStageW : StageFn := fun ctx alerts => (ctx, alerts, none)

/-- C8, counterexample: MultiStage{X} is not extensionally equal to X. For a
stage X that returns its (nonempty) input batch together with an error,
MultiStage{X} returns a nil batch with the error, while X itself returns the
batch. -/
theorem multiStage_singleton_ne :
    MultiStage.exec [errStageW] ctxW [alertW] = (ctxW, ([] : List Alert), some (Err.plain "boom"))
      ∧ errStageW ctxW [alertW] = (ctxW, [alertW], some (Err.plain "boom"))
      ∧ ([] : List Alert) ≠ [alertW] := by
  refine ⟨rfl, rfl, ?_⟩
  decide

/-- C8, amended: for a nonempty batch, MultiStage{X} returns exactly X's
output when X succeeds, and X's context and error with a nil batch when X
fails; on an empty batch it returns (ctx, nil, nil) without consulting X. -/
theorem multiStage_singleton_law (s : StageFn) (ctx : Ctx) (alerts : List Alert) :
    (alerts ≠ [] → ∀ c' as', s ctx alerts = (c', as', none) →
        MultiStage.exec [s] ctx alerts = (c', as', none))
      ∧ (alerts ≠ [] → ∀ c' as' e, s ctx alerts = (c', as', some e) →
        MultiStage.exec [s] ctx alerts = (c', [], some e))
      ∧ MultiStage.exec [s] ctx [] = (ctx, [], none) := by
  refine ⟨?_, ?_, ?_⟩
  · intro hne c' as' hs
    simp [MultiStage.exec, List.isEmpty_iff, hne, hs]
  · intro hne c' as' e hs
    simp [MultiStage.exec, List.isEmpty_iff, hne, hs]
  · simp [MultiStage.exec]

/-- C8, witness for the amended law at a concrete stage and batch. -/
theorem multiStage_singleton_law_witness :
    MultiStage.exec [okStageW] ctxW [alertW] = (ctxW, [alertW], none) :=
  (multiStage_singleton_law okStageW ctxW [alertW]).1 (by decide) ctxW [alertW] rfl

/-- C1: FanoutStage.Exec always returns a nil alert list (the local slice
`as` in the source is never assigned), so it does not preserve the input
batch, contradicting both the claim and the function's own doc comment
("It returns its input alerts..."). Also shown at a concrete failing input:
a single succeeding substage and a one-alert batch come back as a nil batch
with a nil error. -/
theorem fanout_returns_nil_alerts :
    (∀ fs ctx alerts, (FanoutStage.exec fs ctx alerts).2.1 = [])
      ∧ FanoutStage.exec [okStageW] ctxW [alertW] = (ctxW, ([] : List Alert), none)
      ∧ ([] : List Alert) ≠ [alertW] := by
  refine ⟨?_, rfl, by decide⟩
  intro fs ctx alerts
  unfold FanoutStage.exec
  dsimp only
  split <;> rfl

/-- Model of one timeinterval.TimeInterval: its ContainsTime predicate,
already composed with the UTC conversion the source applies at the call
site (ti.ContainsTime(now.UTC()), notify.go line 880). -/
structure TimeInterval where
  containsTime : Time → Bool

/-- Model of the map from interval name to intervals (map lookup only). -/
abbrev IntervalTable := List (String × List TimeInterval)

/-- Lookup in the interval table, modelling `intervals[name]`. -/
def IntervalTable.lookup? (tbl : IntervalTable) (name : String) : Option (List TimeInterval) :=
  (tbl.find? (fun e => e.1 == name)).map (·.2)

/-- inTimeIntervals (notify.go lines 873-886): walks the names in order,
errors on the first name missing from the table, and returns true as soon as
one interval of a listed name contains now. -/
def inTimeIntervals (now : Time) (intervals : IntervalTable) :
    List String → Except String Bool
  | [] => .ok false
  | name :: rest =>
    match intervals.lookup? name with
    | none => .error ("time interval " ++ name ++ " doesn't exist in config")
    | some tis =>
      if tis.any (fun ti => ti.containsTime now) then .ok true
      else inTimeIntervals now intervals rest

/-- TimeMuteStage.Exec (notify.go lines 811-832). -/
def TimeMuteStage.Exec (times : IntervalTable) (ctx : Ctx) (alerts : List Alert) :
    Ctx × List Alert × Option Err :=
  match ctx.muteNames? with
  | none => (ctx, alerts, none)
  | some names =>
    match ctx.now? with
    | none => (ctx, alerts, some (.plain "missing now timestamp"))
    | some now =>
      match inTimeIntervals now times names with
      | .error e => (ctx, alerts, some (.plain e))
      | .ok muted => if muted then (ctx, [], none) else (ctx, alerts, none)

/-- TimeActiveStage.Exec (notify.go lines 842-870). -/
def TimeActiveStage.Exec (times : IntervalTable) (ctx : Ctx) (alerts : List Alert) :
    Ctx × List Alert × Option Err :=
  match ctx.activeNames? with
  | none => (ctx, alerts, none)
  | some names =>
    if names.isEmpty then (ctx, alerts, none)
    else
      match ctx.now? with
      | none => (ctx, alerts, some (.plain "missing now timestamp"))
      | some now =>
        match inTimeIntervals now times names with
        | .error e => (ctx, alerts, some (.plain e))
        | .ok active => if !active then (ctx, [], none) else (ctx, alerts, none)

/-- Interval table used in the C9 counterexample: name "a" is bound to one
interval containing every instant; name "b" is absent. -/
def tblW : IntervalTable := [("a", [⟨fun _ => true⟩])]

/-- Context for the C9 counterexample, listing mute intervals ["a", "b"]. -/
def ctxMuteAB : Ctx := { ctxW with muteNames? := some ["a", "b"], now? := some 0 }

/-- Context listing the single (absent) mute interval name "b". -/
def ctxMuteB : Ctx := { ctxW with muteNames? := some ["b"], now? := some 0 }

/-- C9, counterexample: with table {"a" ↦ always} and names ["a", "b"], the
name "b" is absent from the table yet TimeMuteStage does not abort — the hit
on "a" returns first, muting the batch with a nil error. Moreover when the
stage does abort (names = ["b"]), the error text is "time interval b doesn't
exist in config", not the claimed "time interval b doesn't exist". -/
theorem timeMute_counterexample :
    TimeMuteStage.Exec tblW ctxMuteAB [alertW] = (ctxMuteAB, ([] : List Alert), none)
      ∧ TimeMuteStage.Exec tblW ctxMuteB [alertW]
          = (ctxMuteB, [alertW], some (.plain "time interval b doesn't exist in config"))
      ∧ "time interval b doesn't exist in config" ≠ "time interval b doesn't exist" := by
  refine ⟨rfl, rfl, by decide⟩

/-- C9, amended, part for inTimeIntervals: the walk errors exactly on the
first absent name that is reached without an earlier containment hit. -/
theorem inTimeIntervals_first_absent (now : Time) (tbl : IntervalTable)
    (pre : List String) (name : String) (post : List String)
    (hpre : ∀ x ∈ pre, ∃ tis, tbl.lookup? x = some tis
        ∧ tis.any (fun ti => ti.containsTime now) = false)
    (habs : tbl.lookup? name = none) :
    inTimeIntervals now tbl (pre ++ name :: post)
      = .error ("time interval " ++ name ++ " doesn't exist in config") := by
  induction pre with
  | nil => simp [inTimeIntervals, habs]
  | cons x xs ih =>
    obtain ⟨tis, hx, hnone⟩ := hpre x (by simp)
    have := ih (fun y hy => hpre y (by simp [hy]))
    simpa [inTimeIntervals, hx, hnone] using this

/-- C9, amended: the time stages never partially filter — the returned batch
is the input or empty on every path — and whenever the interval walk errors
(in particular on a reached absent name) both stages abort, returning the
input batch together with the error "time interval <name> doesn't exist in
config". -/
theorem timeStages_no_partial_filter (times : IntervalTable) (ctx : Ctx)
    (alerts : List Alert) :
    ((TimeMuteStage.Exec times ctx alerts).2.1 = alerts
        ∨ (TimeMuteStage.Exec times ctx alerts).2.1 = [])
      ∧ ((TimeActiveStage.Exec times ctx alerts).2.1 = alerts
        ∨ (TimeActiveStage.Exec times ctx alerts).2.1 = [])
      ∧ (∀ names now e, ctx.muteNames? = some names → ctx.now? = some now →
          inTimeIntervals now times names = .error e →
          TimeMuteStage.Exec times ctx alerts = (ctx, alerts, some (.plain e)))
      ∧ (∀ names now e, ctx.activeNames? = some names → names ≠ [] →
          ctx.now? = some now →
          inTimeIntervals now times names = .error e →
          TimeActiveStage.Exec times ctx alerts = (ctx, alerts, some (.plain e))) := by
  refine ⟨?_, ?_, ?_, ?_⟩
  · rcases hmn : ctx.muteNames? with _ | names
    · left; simp [TimeMuteStage.Exec, hmn]
    rcases hnow : ctx.now? with _ | now
    · left; simp [TimeMuteStage.Exec, hmn, hnow]
    rcases h : inTimeIntervals now times names with e | b
    · left; simp [TimeMuteStage.Exec, hmn, hnow, h]
    cases b
    · left; simp [TimeMuteStage.Exec, hmn, hnow, h]
    · right; simp [TimeMuteStage.Exec, hmn, hnow, h]
  · rcases han : ctx.activeNames? with _ | names
    · left; simp [TimeActiveStage.Exec, han]
    by_cases hne : names.isEmpty = true
    · left; simp [TimeActiveStage.Exec, han, hne]
    rcases hnow : ctx.now? with _ | now
    · left; simp [TimeActiveStage.Exec, han, hne, hnow]
    rcases h : inTimeIntervals now times names with e | b
    · left; simp [TimeActiveStage.Exec, han, hne, hnow, h]
    cases b
    · right; simp [TimeActiveStage.Exec, han, hne, hnow, h]
    · left; simp [TimeActiveStage.Exec, han, hne, hnow, h]
  · intro names now e hn hnow he
    unfold TimeMuteStage.Exec
    simp [hn, hnow, he]
  · intro names now e hn hne hnow he
    unfold TimeActiveStage.Exec
    simp [hn, List.isEmpty_iff, hne, hnow, he]

/-- C9, witness: the amended statement applied at the concrete table
{"a" ↦ never-containing} with names ["a", "b"] ("b" absent), and a concrete
no-partial-filter instance. -/
theorem timeStages_no_partial_filter_witness :
    TimeMuteStage.Exec [("a", [⟨fun _ => false⟩])]
        { ctxW with muteNames? := some ["a", "b"], now? := some 0 } [alertW]
      = ({ ctxW with muteNames? := some ["a", "b"], now? := some 0 }, [alertW],
          some (.plain "time interval b doesn't exist in config")) :=
  (timeStages_no_partial_filter [("a", [⟨fun _ => false⟩])]
      { ctxW with muteNames? := some ["a", "b"], now? := some 0 } [alertW]).2.2.1
    ["a", "b"] 0 "time interval b doesn't exist in config" rfl rfl
    (inTimeIntervals_first_absent 0 [("a", [⟨fun _ => false⟩])] ["a"] "b" []
      (by intro x hx; simp at hx; subst hx; exact ⟨[⟨fun _ => false⟩], rfl, rfl⟩) rfl)

/-- Model of the redis keyspace: one entry per key with its string value and
an optional absolute expiry deadline (redis stores every value as a string;
SetNX installs the TTL, Incr parses and rewrites the integer). `setEntry`
keeps at most one entry per key. -/
structure RedisState where
  entries : List (String × String × Option Nat)
deriving Repr, DecidableEq, Inhabited

/-- A key deadline is live at time t when absent or not yet reached. -/
def liveAt (t : Nat) : Option Nat → Bool
  | none => true
  | some d => t < d

/-- Value and expiry of key k at time t, treating expired entries as absent
(redis expires keys lazily; the pipeline never observes a dead entry). -/
def RedisState.getEntry? (st : RedisState) (t : Nat) (k : String) :
    Option (String × Option Nat) :=
  match st.entries.find? (fun e => e.1 == k) with
  | some (_, v, exp) => if liveAt t exp then some (v, exp) else none
  | none => none

/-- Value of key k at time t. -/
def RedisState.get? (st : RedisState) (t : Nat) (k : String) : Option String :=
  (st.getEntry? t k).map (·.1)

/-- Store k ↦ v with deadline exp, dropping any previous entry for k. -/
def RedisState.setEntry (st : RedisState) (k v : String) (exp : Option Nat) : RedisState :=
  ⟨(k, v, exp) :: st.entries.filter (fun e => e.1 != k)⟩

/-- Remove key k (redis DEL). -/
def RedisState.delKey (st : RedisState) (k : String) : RedisState :=
  ⟨st.entries.filter (fun e => e.1 != k)⟩

/-- The store with no keys. -/
def emptyStore : RedisState := ⟨[]⟩

/-- Transient-failure schedule for the KV client: each redis call pops one
flag; true injects an error into that call (the call then has no effect). -/
def popFault : List Bool → Bool × List Bool
  | [] => (false, [])
  | f :: r => (f, r)

/-- EXISTS k (rdb.Exists(...).Result()): 1 when the key is live, 0 otherwise;
none models a transient client error. -/
def rdbExists (st : RedisState) (fs : List Bool) (t : Nat) (k : String) :
    Option Nat × RedisState × List Bool :=
  let (flt, fs') := popFault fs
  if flt then (none, st, fs')
  else (some (if (st.get? t k).isSome then 1 else 0), st, fs')

/-- GET k (rdb.Get(...).Result()): none models both a transient error and
redis.Nil on an absent key — the source only ever branches on err != nil,
which covers the two alike. -/
def rdbGet (st : RedisState) (fs : List Bool) (t : Nat) (k : String) :
    Option String × RedisState × List Bool :=
  let (flt, fs') := popFault fs
  if flt then (none, st, fs')
  else (st.get? t k, st, fs')

/-- GET k parsed as an integer (rdb.Get(...).Int64()): fails on a transient
error, an absent key, or a non-integer value. -/
def rdbGetInt (st : RedisState) (fs : List Bool) (t : Nat) (k : String) :
    Option Int × RedisState × List Bool :=
  let (r, st', fs') := rdbGet st fs t k
  (r.bind String.toInt?, st', fs')

/-- DEL k (rdb.Del, result discarded by the source): no effect on a fault. -/
def rdbDel (st : RedisState) (fs : List Bool) (_t : Nat) (k : String) :
    RedisState × List Bool :=
  let (flt, fs') := popFault fs
  if flt then (st, fs') else (st.delKey k, fs')

/-- SETNX k v ttl (rdb.SetNX(...).Result()): some false when the key is
live, some true after storing v with deadline t + ttl (a zero ttl means no
expiry, as in go-redis); none on a transient error. -/
def rdbSetNX (st : RedisState) (fs : List Bool) (t : Nat) (k v : String) (ttl : Nat) :
    Option Bool × RedisState × List Bool :=
  let (flt, fs') := popFault fs
  if flt then (none, st, fs')
  else
    match st.get? t k with
    | some _ => (some false, st, fs')
    | none => (some true, st.setEntry k v (if ttl = 0 then none else some (t + ttl)), fs')

/-- INCR k (rdb.Incr(...).Result()): creates the key at 1 with no expiry, or
parses and increments it keeping its deadline; errors on a transient fault
or a non-integer value. -/
def rdbIncr (st : RedisState) (fs : List Bool) (t : Nat) (k : String) :
    Option Int × RedisState × List Bool :=
  let (flt, fs') := popFault fs
  if flt then (none, st, fs')
  else
    match st.getEntry? t k with
    | none => (some 1, st.setEntry k "1" none, fs')
    | some (v, exp) =>
      match v.toInt? with
      | some n => (some (n + 1), st.setEntry k (toString (n + 1)) exp, fs')
      | none => (none, st, fs')

/-- The AlertSentPrefix constant of notify.go line 49. -/
def AlertSentPrefix : String := "alert-sent-"

/-- Model of nflogpb.Receiver as used by the stage keys. -/
structure Receiver where
  groupName : String
  integration : String
  idx : Nat
deriving Repr, DecidableEq

/-- receiverKey (notify.go lines 555-557). -/
def receiverKey (r : Receiver) : String :=
  r.groupName ++ ":" ++ r.integration ++ ":" ++ toString r.idx

/-- stateKey (notify.go lines 551-553). -/
def stateKey (k : String) (r : Receiver) (hash : Nat) : String :=
  k ++ ":" ++ receiverKey r ++ ":" ++ toString hash

/-- Accumulator of the loop in DedupStage.Exec: the store and fault schedule
threaded through the redis calls, the firing and resolved hash lists, the
needsUpdateAlerts batch, and the last WithRuleUID value. -/
structure DedupAcc where
  rdb : RedisState
  faults : List Bool
  firing : List Nat
  resolvedL : List Nat
  emitted : List Alert
  ruleUID? : Option String
deriving Repr, DecidableEq

/-- Body of the per-alert loop of DedupStage.Exec (notify.go lines 573-614).
For a resolved alert: record the hash, EXISTS on the state key (an error
skips the alert, bypassing the WithRuleUID update exactly as `continue`
does), and when present read the sent counter (errors ignored) and emit the
alert. For a firing alert: GET the stored stage falling back to the alert's
own on error, DEL on a non-empty mismatch, SETNX with ttl = repeatInterval
(an error skips the alert), and on success record the hash, INCR the sent
counter into SentCount (errors ignored) and emit the alert. -/
def DedupStage.processAlert (hashF : Alert → Nat) (gkey : String) (recv : Receiver)
    (rp t : Nat) (acc : DedupAcc) (a : Alert) : DedupAcc :=
  let h := hashF a
  let sKey := stateKey gkey recv h
  if a.resolved then
    let res := acc.resolvedL ++ [h]
    match rdbExists acc.rdb acc.faults t sKey with
    | (none, st, fs) => { acc with resolvedL := res, rdb := st, faults := fs }
    | (some ex, st, fs) =>
      if ex == 1 then
        match rdbGetInt st fs t (AlertSentPrefix ++ sKey) with
        | (cnt?, st2, fs2) =>
          let a' := match cnt? with
            | some c => { a with sentCount := c }
            | none => a
          { acc with resolvedL := res, rdb := st2, faults := fs2,
                     emitted := acc.emitted ++ [a'], ruleUID? := some a.ruleUID }
      else
        { acc with resolvedL := res, rdb := st, faults := fs, ruleUID? := some a.ruleUID }
  else
    match rdbGet acc.rdb acc.faults t sKey with
    | (stage?, st, fs) =>
      let stage := stage?.getD a.stage
      let (st2, fs2) :=
        if stage ≠ "" ∧ stage ≠ a.stage then rdbDel st fs t sKey else (st, fs)
      match rdbSetNX st2 fs2 t sKey a.stage rp with
      | (none, st3, fs3) => { acc with rdb := st3, faults := fs3 }
      | (some needsUpdate, st3, fs3) =>
        if needsUpdate then
          match rdbIncr st3 fs3 t (AlertSentPrefix ++ sKey) with
          | (cnt?, st4, fs4) =>
            let a' := match cnt? with
              | some c => { a with sentCount := c }
              | none => a
            { acc with rdb := st4, faults := fs4, firing := acc.firing ++ [h],
                       emitted := acc.emitted ++ [a'], ruleUID? := some a.ruleUID }
        else
          { acc with rdb := st3, faults := fs3, ruleUID? := some a.ruleUID }

/-- Result of DedupStage.Exec: the returned context, batch and error of the
source, plus the final store and fault schedule of the model. -/
structure DedupResult where
  ctx : Ctx
  rdb : RedisState
  faults : List Bool
  alerts : List Alert
  err : Option Err
deriving Repr

/-- DedupStage.Exec (notify.go lines 560-619): hard errors when GroupKey or
RepeatInterval is missing from the context, otherwise folds the per-alert
loop over the batch and installs FiringAlerts, ResolvedAlerts and the last
RuleUID into the context, returning needsUpdateAlerts with a nil error. The
parameter t is the redis-server time of this execution. -/
def DedupStage.Exec (hashF : Alert → Nat) (recv : Receiver) (t : Nat)
    (rdb : RedisState) (faults : List Bool) (ctx : Ctx) (alerts : List Alert) :
    DedupResult :=
  match ctx.groupKey? with
  | none => ⟨ctx, rdb, faults, [], some (.plain "group key missing")⟩
  | some gkey =>
    match ctx.repeatInterval? with
    | none => ⟨ctx, rdb, faults, [], some (.plain "repeat interval missing")⟩
    | some rp =>
      let acc := alerts.foldl (DedupStage.processAlert hashF gkey recv rp t)
        ⟨rdb, faults, [], [], [], ctx.ruleUID?⟩
      let ctx' := { ctx with ruleUID? := acc.ruleUID?,
                             firingAlerts? := some acc.firing,
                             resolvedAlerts? := some acc.resolvedL }
      ⟨ctx', acc.rdb, acc.faults, acc.emitted, none⟩

theorem find?_filter_ne_key (l : List (String × String × Option Nat)) (k k' : String)
    (h : k' ≠ k) :
    (l.filter (fun e => e.1 != k)).find? (fun e => e.1 == k')
      = l.find? (fun e => e.1 == k') := by
  induction l with
  | nil => rfl
  | cons e rest ih =>
    by_cases he : e.1 = k'
    · simp [List.filter_cons, List.find?_cons, he, h]
    · by_cases hk : e.1 = k
      · simp [List.filter_cons, List.find?_cons, he, hk, Ne.symm h, ih]
      · simp [List.filter_cons, List.find?_cons, he, hk, ih]

theorem getEntry?_setEntry_self (st : RedisState) (t : Nat) (k v : String)
    (exp : Option Nat) :
    (st.setEntry k v exp).getEntry? t k
      = if liveAt t exp then some (v, exp) else none := by
  simp [RedisState.setEntry, RedisState.getEntry?, List.find?_cons]

theorem getEntry?_setEntry_ne (st : RedisState) (t : Nat) (k k' v : String)
    (exp : Option Nat) (h : k' ≠ k) :
    (st.setEntry k v exp).getEntry? t k' = st.getEntry? t k' := by
  have hne : (k == k') = false := by
    simp [Ne.symm h]
  simp [RedisState.setEntry, RedisState.getEntry?, List.find?_cons, hne,
        find?_filter_ne_key st.entries k k' h]

theorem get?_setEntry_self (st : RedisState) (t : Nat) (k v : String) (exp : Option Nat) :
    (st.setEntry k v exp).get? t k = if liveAt t exp then some v else none := by
  simp [RedisState.get?, getEntry?_setEntry_self]

theorem get?_setEntry_ne (st : RedisState) (t : Nat) (k k' v : String)
    (exp : Option Nat) (h : k' ≠ k) :
    (st.setEntry k v exp).get? t k' = st.get? t k' := by
  simp [RedisState.get?, getEntry?_setEntry_ne st t k k' v exp h]

theorem getEntry?_delKey_self (st : RedisState) (t : Nat) (k : String) :
    (st.delKey k).getEntry? t k = none := by
  have : (st.entries.filter (fun e => e.1 != k)).find? (fun e => e.1 == k) = none := by
    rw [List.find?_eq_none]
    intro e he
    have := (List.mem_filter.mp he).2
    simpa using this
  simp [RedisState.delKey, RedisState.getEntry?, this]

theorem getEntry?_delKey_ne (st : RedisState) (t : Nat) (k k' : String) (h : k' ≠ k) :
    (st.delKey k).getEntry? t k' = st.getEntry? t k' := by
  simp [RedisState.delKey, RedisState.getEntry?, find?_filter_ne_key st.entries k k' h]

theorem get?_delKey_self (st : RedisState) (t : Nat) (k : String) :
    (st.delKey k).get? t k = none := by
  simp [RedisState.get?, getEntry?_delKey_self]

theorem get?_delKey_ne (st : RedisState) (t : Nat) (k k' : String) (h : k' ≠ k) :
    (st.delKey k).get? t k' = st.get? t k' := by
  simp [RedisState.get?, getEntry?_delKey_ne st t k k' h]

/-- The sent-counter key is never the state key itself. -/
theorem alertSent_key_ne (s : String) : AlertSentPrefix ++ s ≠ s := by
  intro h
  have hlen : (AlertSentPrefix ++ s).length = s.length := by rw [h]
  rw [String.length_append] at hlen
  have hp : AlertSentPrefix.length = 11 := by decide
  omega

/-- C10: whenever GroupKey and RepeatInterval are present, DedupStage.Exec
returns a nil error and a context that has both the FiringAlerts and the
ResolvedAlerts keys installed — for every store, fault schedule and batch,
including the empty batch — so a downstream FiringAlerts lookup succeeds. -/
theorem dedup_ctx_installs (hashF : Alert → Nat) (recv : Receiver) (t : Nat)
    (rdb : RedisState) (faults : List Bool) (ctx : Ctx) (alerts : List Alert)
    (gk : String) (rp : Nat)
    (hgk : ctx.groupKey? = some gk) (hrp : ctx.repeatInterval? = some rp) :
    (DedupStage.Exec hashF recv t rdb faults ctx alerts).err = none
      ∧ ((DedupStage.Exec hashF recv t rdb faults ctx alerts).ctx.firingAlerts?).isSome
      ∧ ((DedupStage.Exec hashF recv t rdb faults ctx alerts).ctx.resolvedAlerts?).isSome := by
  simp [DedupStage.Exec, hgk, hrp]

/-- C10, witness: the empty batch against the empty store still installs both
hash lists. -/
theorem dedup_ctx_installs_witness :
    (DedupStage.Exec (fun _ => 42) ⟨"ops", "webhook", 0⟩ 0 emptyStore []
        { ctxW with groupKey? := some "g1", repeatInterval? := some 300 } []).err = none
      ∧ ((DedupStage.Exec (fun _ => 42) ⟨"ops", "webhook", 0⟩ 0 emptyStore []
        { ctxW with groupKey? := some "g1", repeatInterval? := some 300 } []).ctx.firingAlerts?).isSome
      ∧ ((DedupStage.Exec (fun _ => 42) ⟨"ops", "webhook", 0⟩ 0 emptyStore []
        { ctxW with groupKey? := some "g1", repeatInterval? := some 300 } []).ctx.resolvedAlerts?).isSome :=
  dedup_ctx_installs (fun _ => 42) ⟨"ops", "webhook", 0⟩ 0 emptyStore []
    { ctxW with groupKey? := some "g1", repeatInterval? := some 300 } [] "g1" 300 rfl rfl

/-- Value INCR would return on the current store: 1 on an absent key, the
parsed value plus one otherwise (none when the stored value is not an
integer). -/
def counterNext (st : RedisState) (t : Nat) (k : String) : Option Int :=
  match st.getEntry? t k with
  | none => some 1
  | some (v, _) => v.toInt?.map (· + 1)

/-- C3: for a resolved alert (fault-free store), the hash is always appended
to the resolved list, the store is never written (in particular the state
key is never created), the alert is emitted iff its state key is live at
read time, the emitted SentCount comes from the sent counter when it parses,
and an absent counter leaves SentCount at its input value — 0 for an alert
entering the pipeline. -/
theorem dedup_resolved_emits_iff_key (hashF : Alert → Nat) (gk : String)
    (recv : Receiver) (rp t : Nat) (acc : DedupAcc) (a : Alert)
    (hf : acc.faults = []) (hr : a.resolved = true) :
    (DedupStage.processAlert hashF gk recv rp t acc a).rdb = acc.rdb
      ∧ (DedupStage.processAlert hashF gk recv rp t acc a).resolvedL
          = acc.resolvedL ++ [hashF a]
      ∧ (DedupStage.processAlert hashF gk recv rp t acc a).firing = acc.firing
      ∧ (acc.rdb.get? t (stateKey gk recv (hashF a)) = none →
          (DedupStage.processAlert hashF gk recv rp t acc a).emitted = acc.emitted)
      ∧ (∀ v, acc.rdb.get? t (stateKey gk recv (hashF a)) = some v →
          (DedupStage.processAlert hashF gk recv rp t acc a).emitted
            = acc.emitted ++ [{ a with sentCount :=
                (((acc.rdb.get? t (AlertSentPrefix ++ stateKey gk recv (hashF a))).bind
                    String.toInt?).getD a.sentCount) }])
      ∧ (∀ v, acc.rdb.get? t (stateKey gk recv (hashF a)) = some v →
          acc.rdb.get? t (AlertSentPrefix ++ stateKey gk recv (hashF a)) = none →
          a.sentCount = 0 →
          (DedupStage.processAlert hashF gk recv rp t acc a).emitted
            = acc.emitted ++ [a]) := by
  rcases hk : acc.rdb.get? t (stateKey gk recv (hashF a)) with _ | v
  · simp [DedupStage.processAlert, hr, hf, rdbExists, popFault, hk]
  · rcases hc : acc.rdb.get? t (AlertSentPrefix ++ stateKey gk recv (hashF a)) with _ | cv
    · simp [DedupStage.processAlert, hr, hf, rdbExists, rdbGetInt, rdbGet, popFault, hk, hc]
      cases a
      simp_all
    · rcases hi : cv.toInt? with _ | n
      · simp [DedupStage.processAlert, hr, hf, rdbExists, rdbGetInt, rdbGet, popFault,
              hk, hc, hi]
        cases a
        simp_all
      · simp [DedupStage.processAlert, hr, hf, rdbExists, rdbGetInt, rdbGet, popFault,
              hk, hc, hi]

/-- C3, witness: a resolved alert against a store where its state key is live
and its sent counter is absent is emitted unchanged (SentCount 0). -/
theorem dedup_resolved_emits_iff_key_witness :
    (DedupStage.processAlert (fun _ => 42) "g1" ⟨"ops", "webhook", 0⟩ 300 0
        ⟨⟨[("g1:ops:webhook:0:42", "active", none)]⟩, [], [], [], [],
          none⟩ { alertW with resolved := true }).emitted
      = [{ alertW with resolved := true }] :=
  (dedup_resolved_emits_iff_key (fun _ => 42) "g1" ⟨"ops", "webhook", 0⟩ 300 0
      ⟨⟨[("g1:ops:webhook:0:42", "active", none)]⟩, [], [], [], [], none⟩
      { alertW with resolved := true } rfl rfl).2.2.2.2.2 "active" rfl rfl rfl

theorem liveAt_of_getEntry? (st : RedisState) (t : Nat) (k v : String) (exp : Option Nat)
    (h : st.getEntry? t k = some (v, exp)) : liveAt t exp = true := by
  unfold RedisState.getEntry? at h
  rcases hf : st.entries.find? (fun e => e.1 == k) with _ | e
  · simp [hf] at h
  · rw [hf] at h
    obtain ⟨k0, v0, e0⟩ := e
    by_cases hl : liveAt t e0 = true
    · simp [hl] at h
      rw [← h.2, hl]
    · simp [hl] at h

theorem liveAt_ttl (t rp : Nat) :
    liveAt t (if rp = 0 then none else some (t + rp)) = true := by
  cases rp with
  | zero => simp [liveAt]
  | succ n => simp [liveAt]

/-- Firing alert, fault-free, stored stage empty or equal to the alert's:
no delete, SETNX fails, the alert is skipped (only WithRuleUID happens). -/
theorem dedupFiring_skip (hashF : Alert → Nat) (gk : String) (recv : Receiver)
    (rp t : Nat) (acc : DedupAcc) (a : Alert)
    (hf : acc.faults = []) (hr : a.resolved = false) (v : String)
    (hk : acc.rdb.get? t (stateKey gk recv (hashF a)) = some v)
    (hv : v = "" ∨ v = a.stage) :
    DedupStage.processAlert hashF gk recv rp t acc a
      = { acc with ruleUID? := some a.ruleUID } := by
  have hdel : ¬(v ≠ "" ∧ v ≠ a.stage) := by
    rcases hv with hv | hv <;> simp [hv]
  simp [DedupStage.processAlert, hr, hf, rdbGet, rdbSetNX, popFault, hk, hdel]

/-- Firing alert, fault-free, state key absent: SETNX succeeds, the hash is
recorded as firing, the sent counter is incremented into SentCount, the
alert is emitted, and the state key now holds the alert's stage until the
TTL deadline. -/
theorem dedupFiring_emit_absent (hashF : Alert → Nat) (gk : String) (recv : Receiver)
    (rp t : Nat) (acc : DedupAcc) (a : Alert) (cNew : Int)
    (hf : acc.faults = []) (hr : a.resolved = false)
    (hk : acc.rdb.get? t (stateKey gk recv (hashF a)) = none)
    (hcn : cNew = Option.getD
        (counterNext acc.rdb t (AlertSentPrefix ++ stateKey gk recv (hashF a)))
        a.sentCount) :
    (DedupStage.processAlert hashF gk recv rp t acc a).emitted
        = acc.emitted ++ [{ a with sentCount := cNew }]
      ∧ (DedupStage.processAlert hashF gk recv rp t acc a).firing
          = acc.firing ++ [hashF a]
      ∧ (DedupStage.processAlert hashF gk recv rp t acc a).resolvedL = acc.resolvedL
      ∧ (DedupStage.processAlert hashF gk recv rp t acc a).ruleUID? = some a.ruleUID
      ∧ (DedupStage.processAlert hashF gk recv rp t acc a).faults = []
      ∧ (∀ m, counterNext acc.rdb t (AlertSentPrefix ++ stateKey gk recv (hashF a)) = some m →
          (DedupStage.processAlert hashF gk recv rp t acc a).rdb.get? t
              (AlertSentPrefix ++ stateKey gk recv (hashF a)) = some (toString m))
      ∧ (∀ t', (DedupStage.processAlert hashF gk recv rp t acc a).rdb.get? t'
            (stateKey gk recv (hashF a))
          = if liveAt t' (if rp = 0 then none else some (t + rp))
            then some a.stage else none) := by
  subst hcn
  have hne : AlertSentPrefix ++ stateKey gk recv (hashF a) ≠ stateKey gk recv (hashF a) :=
    alertSent_key_ne _
  have hnes : stateKey gk recv (hashF a) ≠ AlertSentPrefix ++ stateKey gk recv (hashF a) :=
    Ne.symm hne
  have hck : (acc.rdb.setEntry (stateKey gk recv (hashF a)) a.stage
        (if rp = 0 then none else some (t + rp))).getEntry? t
        (AlertSentPrefix ++ stateKey gk recv (hashF a))
      = acc.rdb.getEntry? t (AlertSentPrefix ++ stateKey gk recv (hashF a)) :=
    getEntry?_setEntry_ne _ _ _ _ _ _ hne
  rcases hce : acc.rdb.getEntry? t (AlertSentPrefix ++ stateKey gk recv (hashF a))
    with _ | ⟨cv, cexp⟩
  · simp [DedupStage.processAlert, hr, hf, rdbGet, rdbSetNX, rdbIncr, popFault, hk,
          counterNext, hck, hce]
    refine ⟨?_, ?_⟩
    · rw [get?_setEntry_self]
      simp [liveAt]
      try rfl
    · intro t'
      rw [get?_setEntry_ne _ _ _ _ _ _ hnes, get?_setEntry_self]
  · rcases hi : cv.toInt? with _ | n
    · simp [DedupStage.processAlert, hr, hf, rdbGet, rdbSetNX, rdbIncr, popFault, hk,
            counterNext, hck, hce, hi]
      refine ⟨?_, ?_⟩
      · cases a
        simp_all
      · intro t'
        rw [get?_setEntry_self]
    · have hlive : liveAt t cexp = true := liveAt_of_getEntry? _ _ _ _ _ hce
      simp [DedupStage.processAlert, hr, hf, rdbGet, rdbSetNX, rdbIncr, popFault, hk,
            counterNext, hck, hce, hi]
      refine ⟨?_, ?_⟩
      · rw [get?_setEntry_self]
        simp [hlive]
      · intro t'
        rw [get?_setEntry_ne _ _ _ _ _ _ hnes, get?_setEntry_self]

/-- Firing alert, fault-free, stored stage non-empty and different from the
alert's: the key is deleted, SETNX succeeds, and the alert is emitted as in
the absent-key case. -/
theorem dedupFiring_emit_mismatch (hashF : Alert → Nat) (gk : String) (recv : Receiver)
    (rp t : Nat) (acc : DedupAcc) (a : Alert) (v : String) (cNew : Int)
    (hf : acc.faults = []) (hr : a.resolved = false)
    (hk : acc.rdb.get? t (stateKey gk recv (hashF a)) = some v)
    (hv1 : v ≠ "") (hv2 : v ≠ a.stage)
    (hcn : cNew = Option.getD
        (counterNext acc.rdb t (AlertSentPrefix ++ stateKey gk recv (hashF a)))
        a.sentCount) :
    (DedupStage.processAlert hashF gk recv rp t acc a).emitted
        = acc.emitted ++ [{ a with sentCount := cNew }]
      ∧ (DedupStage.processAlert hashF gk recv rp t acc a).firing
          = acc.firing ++ [hashF a]
      ∧ (DedupStage.processAlert hashF gk recv rp t acc a).resolvedL = acc.resolvedL
      ∧ (DedupStage.processAlert hashF gk recv rp t acc a).ruleUID? = some a.ruleUID
      ∧ (DedupStage.processAlert hashF gk recv rp t acc a).faults = []
      ∧ (∀ m, counterNext acc.rdb t (AlertSentPrefix ++ stateKey gk recv (hashF a)) = some m →
          (DedupStage.processAlert hashF gk recv rp t acc a).rdb.get? t
              (AlertSentPrefix ++ stateKey gk recv (hashF a)) = some (toString m))
      ∧ (∀ t', (DedupStage.processAlert hashF gk recv rp t acc a).rdb.get? t'
            (stateKey gk recv (hashF a))
          = if liveAt t' (if rp = 0 then none else some (t + rp))
            then some a.stage else none) := by
  subst hcn
  have hne : AlertSentPrefix ++ stateKey gk recv (hashF a) ≠ stateKey gk recv (hashF a) :=
    alertSent_key_ne _
  have hnes : stateKey gk recv (hashF a) ≠ AlertSentPrefix ++ stateKey gk recv (hashF a) :=
    Ne.symm hne
  have hdel : (acc.rdb.delKey (stateKey gk recv (hashF a))).get? t
      (stateKey gk recv (hashF a)) = none := get?_delKey_self _ _ _
  have hckd : (acc.rdb.delKey (stateKey gk recv (hashF a))).getEntry? t
        (AlertSentPrefix ++ stateKey gk recv (hashF a))
      = acc.rdb.getEntry? t (AlertSentPrefix ++ stateKey gk recv (hashF a)) :=
    getEntry?_delKey_ne _ _ _ _ hne
  have hck : ((acc.rdb.delKey (stateKey gk recv (hashF a))).setEntry
        (stateKey gk recv (hashF a)) a.stage
        (if rp = 0 then none else some (t + rp))).getEntry? t
        (AlertSentPrefix ++ stateKey gk recv (hashF a))
      = acc.rdb.getEntry? t (AlertSentPrefix ++ stateKey gk recv (hashF a)) := by
    rw [getEntry?_setEntry_ne _ _ _ _ _ _ hne, hckd]
  rcases hce : acc.rdb.getEntry? t (AlertSentPrefix ++ stateKey gk recv (hashF a))
    with _ | ⟨cv, cexp⟩
  · simp [DedupStage.processAlert, hr, hf, rdbGet, rdbSetNX, rdbIncr, rdbDel, popFault,
          hk, hv1, hv2, hdel, counterNext, hck, hce]
    refine ⟨?_, ?_⟩
    · rw [get?_setEntry_self]
      simp [liveAt]
      try rfl
    · intro t'
      rw [get?_setEntry_ne _ _ _ _ _ _ hnes, get?_setEntry_self]
  · rcases hi : cv.toInt? with _ | n
    · simp [DedupStage.processAlert, hr, hf, rdbGet, rdbSetNX, rdbIncr, rdbDel, popFault,
            hk, hv1, hv2, hdel, counterNext, hck, hce, hi]
      refine ⟨?_, ?_⟩
      · cases a
        simp_all
      · intro t'
        rw [get?_setEntry_self]
    · have hlive : liveAt t cexp = true := liveAt_of_getEntry? _ _ _ _ _ hce
      simp [DedupStage.processAlert, hr, hf, rdbGet, rdbSetNX, rdbIncr, rdbDel, popFault,
            hk, hv1, hv2, hdel, counterNext, hck, hce, hi]
      refine ⟨?_, ?_⟩
      · rw [get?_setEntry_self]
        simp [hlive]
      · intro t'
        rw [get?_setEntry_ne _ _ _ _ _ _ hnes, get?_setEntry_self]

/-- New SentCount assigned by the firing branch: the incremented counter
when INCR succeeds, otherwise the alert's previous value. -/
def dedupNewCount (st : RedisState) (t : Nat) (ck : String) (a : Alert) : Int :=
  (counterNext st t ck).getD a.sentCount

/-- The alert as emitted after its SentCount was stamped. -/
def stampSent (a : Alert) (c : Int) : Alert := { a with sentCount := c }

/-- C2: in the fault-free firing branch, the alert is emitted iff the SETNX
with ttl = repeatInterval succeeds — exactly then its hash joins the firing
list, the sent counter is incremented and stamped into SentCount — and a
second back-to-back Exec with the same firing alert within the TTL drops
it. -/
theorem dedup_firing_setnx_gate (hashF : Alert → Nat) (gk : String) (recv : Receiver)
    (rp t : Nat) (acc : DedupAcc) (a : Alert)
    (hf : acc.faults = []) (hr : a.resolved = false) :
    (∀ v, acc.rdb.get? t (stateKey gk recv (hashF a)) = some v → (v = "" ∨ v = a.stage) →
        DedupStage.processAlert hashF gk recv rp t acc a
          = { acc with ruleUID? := some a.ruleUID })
      ∧ (acc.rdb.get? t (stateKey gk recv (hashF a)) = none →
          (DedupStage.processAlert hashF gk recv rp t acc a).emitted
              = acc.emitted ++ [stampSent a (dedupNewCount acc.rdb t
                  (AlertSentPrefix ++ stateKey gk recv (hashF a)) a)]
            ∧ (DedupStage.processAlert hashF gk recv rp t acc a).firing
                = acc.firing ++ [hashF a]
            ∧ (∀ m, counterNext acc.rdb t (AlertSentPrefix ++ stateKey gk recv (hashF a))
                  = some m →
                (DedupStage.processAlert hashF gk recv rp t acc a).rdb.get? t
                    (AlertSentPrefix ++ stateKey gk recv (hashF a)) = some (toString m)))
      ∧ (∀ v, acc.rdb.get? t (stateKey gk recv (hashF a)) = some v → v ≠ "" → v ≠ a.stage →
          (DedupStage.processAlert hashF gk recv rp t acc a).emitted
              = acc.emitted ++ [stampSent a (dedupNewCount acc.rdb t
                  (AlertSentPrefix ++ stateKey gk recv (hashF a)) a)]
            ∧ (DedupStage.processAlert hashF gk recv rp t acc a).firing
                = acc.firing ++ [hashF a])
      ∧ (∀ ctx st t1 t2, ctx.groupKey? = some gk → ctx.repeatInterval? = some rp →
          st.get? t1 (stateKey gk recv (hashF a)) = none →
          (rp = 0 ∨ t2 < t1 + rp) →
          (DedupStage.Exec hashF recv t1 st [] ctx [a]).alerts ≠ []
            ∧ (DedupStage.Exec hashF recv t2
                  (DedupStage.Exec hashF recv t1 st [] ctx [a]).rdb [] ctx [a]).alerts = []
            ∧ (DedupStage.Exec hashF recv t2
                  (DedupStage.Exec hashF recv t1 st [] ctx [a]).rdb [] ctx [a]).err = none) := by
  refine ⟨?_, ?_, ?_, ?_⟩
  · intro v hk hv
    exact dedupFiring_skip hashF gk recv rp t acc a hf hr v hk hv
  · intro hk
    obtain ⟨h1, h2, _, _, _, h6, _⟩ :=
      dedupFiring_emit_absent hashF gk recv rp t acc a _ hf hr hk rfl
    exact ⟨h1, h2, h6⟩
  · intro v hk hv1 hv2
    obtain ⟨h1, h2, _⟩ :=
      dedupFiring_emit_mismatch hashF gk recv rp t acc a v _ hf hr hk hv1 hv2 rfl
    exact ⟨h1, h2⟩
  · intro ctx st t1 t2 hgk hrp habs hlive
    have hres1 : (DedupStage.Exec hashF recv t1 st [] ctx [a]).alerts
        = (DedupStage.processAlert hashF gk recv rp t1 ⟨st, [], [], [], [], ctx.ruleUID?⟩
            a).emitted := by
      simp [DedupStage.Exec, hgk, hrp]
    have hrdb1 : (DedupStage.Exec hashF recv t1 st [] ctx [a]).rdb
        = (DedupStage.processAlert hashF gk recv rp t1 ⟨st, [], [], [], [], ctx.ruleUID?⟩
            a).rdb := by
      simp [DedupStage.Exec, hgk, hrp]
    obtain ⟨h1, _, _, _, _, _, hpersist⟩ :=
      dedupFiring_emit_absent hashF gk recv rp t1 ⟨st, [], [], [], [], ctx.ruleUID?⟩ a _
        rfl hr habs rfl
    have hl : liveAt t2 (if rp = 0 then none else some (t1 + rp)) = true := by
      rcases hlive with h0 | hlt
      · simp [h0, liveAt]
      · cases rp with
        | zero => simp [liveAt]
        | succ n =>
          simp [liveAt]
          omega
    have hsk2 : (DedupStage.Exec hashF recv t1 st [] ctx [a]).rdb.get? t2
        (stateKey gk recv (hashF a)) = some a.stage := by
      rw [hrdb1, hpersist t2, hl]
      simp
    have hskip := dedupFiring_skip hashF gk recv rp t2
      ⟨(DedupStage.Exec hashF recv t1 st [] ctx [a]).rdb, [], [], [], [], ctx.ruleUID?⟩ a
      rfl hr a.stage hsk2 (Or.inr rfl)
    refine ⟨?_, ?_, ?_⟩
    · rw [hres1, h1]
      simp
    · have hres2 : (DedupStage.Exec hashF recv t2
          (DedupStage.Exec hashF recv t1 st [] ctx [a]).rdb [] ctx [a]).alerts
          = (DedupStage.processAlert hashF gk recv rp t2
              ⟨(DedupStage.Exec hashF recv t1 st [] ctx [a]).rdb, [], [], [], [],
                ctx.ruleUID?⟩ a).emitted := by
        simp [DedupStage.Exec, hgk, hrp]
      rw [hres2, hskip]
    · simp [DedupStage.Exec, hgk, hrp]

/-- C2, witness: one firing alert against the empty store is emitted with
SentCount 1, and the identical call 20 ticks later (repeat interval 300)
drops it. -/
theorem dedup_firing_setnx_gate_witness :
    (DedupStage.Exec (fun _ => 42) ⟨"ops", "webhook", 0⟩ 0 emptyStore []
        { ctxW with groupKey? := some "g1", repeatInterval? := some 300 } [alertW]).alerts ≠ []
      ∧ (DedupStage.Exec (fun _ => 42) ⟨"ops", "webhook", 0⟩ 20
          (DedupStage.Exec (fun _ => 42) ⟨"ops", "webhook", 0⟩ 0 emptyStore []
            { ctxW with groupKey? := some "g1", repeatInterval? := some 300 } [alertW]).rdb []
          { ctxW with groupKey? := some "g1", repeatInterval? := some 300 } [alertW]).alerts = []
      ∧ (DedupStage.Exec (fun _ => 42) ⟨"ops", "webhook", 0⟩ 20
          (DedupStage.Exec (fun _ => 42) ⟨"ops", "webhook", 0⟩ 0 emptyStore []
            { ctxW with groupKey? := some "g1", repeatInterval? := some 300 } [alertW]).rdb []
          { ctxW with groupKey? := some "g1", repeatInterval? := some 300 } [alertW]).err = none :=
  (dedup_firing_setnx_gate (fun _ => 42) "g1" ⟨"ops", "webhook", 0⟩ 300 0
      ⟨emptyStore, [], [], [], [], none⟩ alertW rfl rfl).2.2.2
    { ctxW with groupKey? := some "g1", repeatInterval? := some 300 } emptyStore 0 20
    rfl rfl rfl (Or.inr (by omega))

/-- A resolved variant of the witness alert. -/
def alertResW : Alert := { alertW with resolved := true }

/-- C4, counterexample: with fault schedule [false, false, true] the third
redis call of the firing branch — the INCR on the sent counter — fails, yet
the alert is still emitted (the whole schedule was consumed, the batch is
not empty and the stage reports no error), so a transient Incr error does
not exclude the alert as claimed. -/
theorem dedup_incr_error_still_emits :
    (DedupStage.Exec (fun _ => 42) ⟨"ops", "webhook", 0⟩ 0 emptyStore [false, false, true]
        { ctxW with groupKey? := some "g1", repeatInterval? := some 300 } [alertW]).alerts
        = [alertW]
      ∧ (DedupStage.Exec (fun _ => 42) ⟨"ops", "webhook", 0⟩ 0 emptyStore [false, false, true]
          { ctxW with groupKey? := some "g1", repeatInterval? := some 300 } [alertW]).faults
          = []
      ∧ (DedupStage.Exec (fun _ => 42) ⟨"ops", "webhook", 0⟩ 0 emptyStore [false, false, true]
          { ctxW with groupKey? := some "g1", repeatInterval? := some 300 } [alertW]).err
          = none :=
  ⟨rfl, rfl, rfl⟩

/-- C4, amended: the stage always returns a nil error when the context keys
are present; an EXISTS error on a resolved alert and a SETNX error on a
firing alert skip only that alert (even the WithRuleUID update, as the
`continue` does); a GET error falls back to the alert's own stage and an
INCR error merely leaves SentCount unset — the alert is still recorded and
emitted — and the remaining alerts of the batch are still processed. -/
theorem dedup_store_errors_behavior :
    (∀ (hashF : Alert → Nat) recv t rdb faults ctx alerts gk rp,
        ctx.groupKey? = some gk → ctx.repeatInterval? = some rp →
        (DedupStage.Exec hashF recv t rdb faults ctx alerts).err = none)
      ∧ (∀ (hashF : Alert → Nat) gk recv rp t acc a rest,
          acc.faults = true :: rest → a.resolved = true →
          DedupStage.processAlert hashF gk recv rp t acc a
            = { acc with resolvedL := acc.resolvedL ++ [hashF a], faults := rest })
      ∧ (∀ (hashF : Alert → Nat) gk recv rp t acc a rest,
          acc.faults = false :: true :: rest → a.resolved = false →
          acc.rdb.get? t (stateKey gk recv (hashF a)) = none →
          DedupStage.processAlert hashF gk recv rp t acc a = { acc with faults := rest })
      ∧ (∀ (hashF : Alert → Nat) gk recv rp t acc a rest,
          acc.faults = false :: false :: true :: rest → a.resolved = false →
          acc.rdb.get? t (stateKey gk recv (hashF a)) = none →
          (DedupStage.processAlert hashF gk recv rp t acc a).emitted = acc.emitted ++ [a]
            ∧ (DedupStage.processAlert hashF gk recv rp t acc a).firing
                = acc.firing ++ [hashF a]
            ∧ (DedupStage.processAlert hashF gk recv rp t acc a).faults = rest)
      ∧ ((DedupStage.Exec (fun _ => 42) ⟨"ops", "webhook", 0⟩ 0 emptyStore [true]
            { ctxW with groupKey? := some "g1", repeatInterval? := some 300 }
            [alertResW, alertW]).alerts = [{ alertW with sentCount := 1 }]
          ∧ (DedupStage.Exec (fun _ => 42) ⟨"ops", "webhook", 0⟩ 0 emptyStore [true]
              { ctxW with groupKey? := some "g1", repeatInterval? := some 300 }
              [alertResW, alertW]).err = none) := by
  refine ⟨?_, ?_, ?_, ?_, rfl, rfl⟩
  · intro hashF recv t rdb faults ctx alerts gk rp hgk hrp
    simp [DedupStage.Exec, hgk, hrp]
  · intro hashF gk recv rp t acc a rest hfa hr
    simp [DedupStage.processAlert, rdbExists, popFault, hfa, hr]
  · intro hashF gk recv rp t acc a rest hfa hr hk
    simp [DedupStage.processAlert, rdbGet, rdbSetNX, popFault, hfa, hr, hk]
  · intro hashF gk recv rp t acc a rest hfa hr hk
    simp [DedupStage.processAlert, rdbGet, rdbSetNX, rdbIncr, popFault, hfa, hr, hk]

/-- C4 (amended), witness: an EXISTS fault on a single resolved alert skips
it, leaving only the hash recorded and the schedule consumed. -/
theorem dedup_store_errors_behavior_witness :
    DedupStage.processAlert (fun _ => 42) "g1" ⟨"ops", "webhook", 0⟩ 300 0
        ⟨emptyStore, [true], [], [], [], none⟩ alertResW
      = ⟨emptyStore, [], [], [42], [], none⟩ :=
  dedup_store_errors_behavior.2.1 (fun _ => 42) "g1" ⟨"ops", "webhook", 0⟩ 300 0
    ⟨emptyStore, [true], [], [], [], none⟩ alertResW [] rfl rfl

/-- Environment of one RetryStage.exec run: the integration's Notify as a
function of the batch passed and the 0-based call index, the logical time at
which the context's done channel becomes ready (none = never), the
resolution of the select race when the ticker and the done channel are both
ready (true picks the done branch), and the names used in the wrapped error
messages (receiver group name and Integration.String()). -/
structure RetryEnv where
  notify : List Alert → Nat → Bool × Option Err
  doneTime : Option Nat
  choice : Nat → Bool
  groupName : String
  integName : String

/-- Whether ctx.Done() is ready at logical time t. Once ready it stays ready
(the done channel is closed), which this monotone predicate reflects. -/
def ctxReady (d : Option Nat) (t : Nat) : Bool :=
  match d with
  | none => false
  | some d0 => d0 ≤ t

/-- Message of errors.Wrapf on the two ctx.Done() returns (notify.go lines
700 and 740). -/
def canceledMsg (g i : String) (n : Nat) : String :=
  g ++ "/" ++ i ++ ": notify retry canceled after " ++ toString n ++ " attempts"

/-- Message of errors.Wrapf on the unrecoverable-error return (line 716). -/
def unrecovMsg (g i : String) (n : Nat) : String :=
  g ++ "/" ++ i ++ ": notify retry canceled due to unrecoverable error after "
    ++ toString n ++ " attempts"

/-- Observable outcome of RetryStage.exec: the returned alert slice and
error of the source ([] models the nil slice), plus three instrumentation
fields not returned by the Go code — the number of Notify invocations, how
many of them completed before ctx became done, and the filtered batch passed
to every Notify call. -/
structure RetryResult where
  alerts : List Alert
  err : Option Err
  calls : Nat
  callsBefore : Nat
  sent : List Alert
deriving Repr

/-- The retry loop of RetryStage.exec (notify.go lines 691-742). Each
iteration increments i, first polls ctx.Done() non-blockingly (time t), then
blocks on the select of the backoff tick against ctx.Done() (resolved at
time t + 1): if done is ready there, the nondeterministic select choice may
pick the done branch, otherwise the tick fires and Notify runs — a nil error
returns (alerts, nil), an unrecoverable error returns (alerts, wrapped), a
retryable error is remembered in iErr and the loop continues at time t + 2.
Both done returns wrap the last integration error, falling back to
ctx.Err(). The fuel bounds the unbounded source loop; none means the loop
was still running. -/
def retryLoop (env : RetryEnv) (alerts sent : List Alert) :
    Nat → Nat → Nat → Nat → Nat → Option Err → Option RetryResult
  | 0, _, _, _, _, _ => none
  | fuel + 1, t, i0, c, cb, iErr =>
    let i := i0 + 1
    if ctxReady env.doneTime t then
      some ⟨[], some (.wrap (canceledMsg env.groupName env.integName i)
        (iErr.getD .ctxErr)), c, cb, sent⟩
    else
      let doneSel := ctxReady env.doneTime (t + 1)
      if doneSel && env.choice i then
        some ⟨[], some (.wrap (canceledMsg env.groupName env.integName i)
          (iErr.getD .ctxErr)), c, cb, sent⟩
      else
        let cb' := cb + (if doneSel then 0 else 1)
        match env.notify sent c with
        | (_, none) => some ⟨alerts, none, c + 1, cb', sent⟩
        | (retry, some e) =>
          if retry then retryLoop env alerts sent fuel (t + 2) i (c + 1) cb' (some e)
          else some ⟨alerts, some (.wrap (unrecovMsg env.groupName env.integName i) e),
            c + 1, cb', sent⟩

/-- RetryStage.exec (notify.go lines 652-743). When SendResolved() is false:
a missing FiringAlerts key is a hard error, an empty FiringAlerts list
returns the input batch immediately with no Notify call, otherwise resolved
alerts are dropped from the batch passed to the integration; when true the
whole batch is passed. The source returns its ctx argument unchanged on
every path, so the context is omitted from the result. -/
def RetryStage.execFn (sendResolved : Bool) (env : RetryEnv) (fuel : Nat) (ctx : Ctx)
    (alerts : List Alert) : Option RetryResult :=
  if !sendResolved then
    match ctx.firingAlerts? with
    | none => some ⟨[], some (.plain "firing alerts missing"), 0, 0, []⟩
    | some firing =>
      if firing.isEmpty then some ⟨alerts, none, 0, 0, []⟩
      else retryLoop env alerts (alerts.filter (fun a => !a.resolved)) fuel 0 0 0 0 none
  else retryLoop env alerts alerts fuel 0 0 0 0 none

theorem retryLoop_sent (env : RetryEnv) (alerts sent : List Alert) :
    ∀ fuel t i c cb iErr r, retryLoop env alerts sent fuel t i c cb iErr = some r →
      r.sent = sent := by
  intro fuel
  induction fuel with
  | zero => intro t i c cb iErr r h; simp [retryLoop] at h
  | succ n ih =>
    intro t i c cb iErr r h
    rw [retryLoop] at h
    by_cases h1 : ctxReady env.doneTime t = true
    · rw [if_pos h1] at h
      cases h
      rfl
    · rw [if_neg h1] at h
      dsimp only at h
      by_cases h2 : (ctxReady env.doneTime (t + 1) && env.choice (i + 1)) = true
      · rw [if_pos h2] at h
        cases h
        rfl
      · rw [if_neg h2] at h
        rcases hn : env.notify sent c with ⟨retry, _ | e⟩
        · rw [hn] at h
          cases h
          rfl
        · rw [hn] at h
          dsimp only at h
          by_cases h3 : retry = true
          · rw [if_pos h3] at h
            exact ih _ _ _ _ _ _ h
          · rw [if_neg h3] at h
            cases h
            rfl

/-- Environment used by the retry witnesses: Notify succeeds on the first
call, the context never becomes done. -/
def envW : RetryEnv :=
  { notify := fun _ _ => (true, none), doneTime := none, choice := fun _ => false,
    groupName := "ops", integName := "webhook[0]" }

/-- C5: with SendResolved() = false a missing FiringAlerts key is a hard
error, an empty FiringAlerts list returns the input unchanged with a nil
error and zero Notify calls, and a non-empty one drops exactly the resolved
alerts from the batch passed to the integration; with SendResolved() = true
the whole input batch is passed. -/
theorem retry_prefilter (env : RetryEnv) (fuel : Nat) (ctx : Ctx) (alerts : List Alert) :
    (ctx.firingAlerts? = none →
        RetryStage.execFn false env fuel ctx alerts
          = some ⟨[], some (.plain "firing alerts missing"), 0, 0, []⟩)
      ∧ (ctx.firingAlerts? = some [] →
          RetryStage.execFn false env fuel ctx alerts = some ⟨alerts, none, 0, 0, []⟩)
      ∧ (∀ fs, ctx.firingAlerts? = some fs → fs ≠ [] →
          ∀ r, RetryStage.execFn false env fuel ctx alerts = some r →
            r.sent = alerts.filter (fun a => !a.resolved))
      ∧ (∀ r, RetryStage.execFn true env fuel ctx alerts = some r → r.sent = alerts) := by
  refine ⟨?_, ?_, ?_, ?_⟩
  · intro h
    simp [RetryStage.execFn, h]
  · intro h
    simp [RetryStage.execFn, h]
  · intro fs h hne r hr
    simp [RetryStage.execFn, h, List.isEmpty_iff, hne] at hr
    exact retryLoop_sent env alerts _ fuel 0 0 0 0 none r hr
  · intro r hr
    simp [RetryStage.execFn] at hr
    exact retryLoop_sent env alerts alerts fuel 0 0 0 0 none r hr

/-- C5, witness: an all-resolved batch under SendResolved() = false with an
empty FiringAlerts list comes back unchanged with a nil error and no calls,
and under SendResolved() = true the whole batch reaches the integration. -/
theorem retry_prefilter_witness :
    RetryStage.execFn false envW 3 { ctxW with firingAlerts? := some [] } [alertResW]
        = some ⟨[alertResW], none, 0, 0, []⟩
      ∧ (⟨[alertW], none, 1, 1, [alertW]⟩ : RetryResult).sent = [alertW] :=
  ⟨(retry_prefilter envW 3 { ctxW with firingAlerts? := some [] } [alertResW]).2.1 rfl,
   (retry_prefilter envW 1 ctxW [alertW]).2.2.2 ⟨[alertW], none, 1, 1, [alertW]⟩ rfl⟩

theorem ctxReady_mono (d : Option Nat) (t t' : Nat) (hle : t ≤ t')
    (h : ctxReady d t = true) : ctxReady d t' = true := by
  cases d with
  | none => simp [ctxReady] at h
  | some d0 =>
    simp [ctxReady] at h ⊢
    omega

theorem retryLoop_calls_bound_aux (env : RetryEnv) (alerts sent : List Alert) :
    ∀ fuel t i c cb iErr r,
      (ctxReady env.doneTime t = false → c = cb) →
      (ctxReady env.doneTime t = true → c ≤ cb + 1) →
      retryLoop env alerts sent fuel t i c cb iErr = some r →
      r.calls ≤ r.callsBefore + 1 := by
  intro fuel
  induction fuel with
  | zero =>
    intro t i c cb iErr r _ _ h
    simp [retryLoop] at h
  | succ n ih =>
    intro t i c cb iErr r hf ht h
    rw [retryLoop] at h
    by_cases h1 : ctxReady env.doneTime t = true
    · rw [if_pos h1] at h
      cases h
      simpa using ht h1
    · rw [if_neg h1] at h
      dsimp only at h
      have hc : c = cb := hf (by simpa using h1)
      by_cases h2 : (ctxReady env.doneTime (t + 1) && env.choice (i + 1)) = true
      · rw [if_pos h2] at h
        cases h
        simp
        omega
      · rw [if_neg h2] at h
        rcases hn : env.notify sent c with ⟨retry, oe⟩
        rw [hn] at h
        rcases oe with _ | e
        · dsimp only at h
          cases h
          by_cases hds : ctxReady env.doneTime (t + 1) = true
          · simp [hds]
            omega
          · simp [hds]
            omega
        · dsimp only at h
          by_cases h3 : retry = true
          · rw [if_pos h3] at h
            by_cases hds : ctxReady env.doneTime (t + 1) = true
            · have hm : ctxReady env.doneTime (t + 2) = true :=
                ctxReady_mono env.doneTime (t + 1) (t + 2) (by omega) hds
              refine ih (t + 2) (i + 1) (c + 1) _ (some e) r ?_ ?_ h
              · intro hff
                rw [hm] at hff
                cases hff
              · intro _
                simp [hds]
                omega
            · refine ih (t + 2) (i + 1) (c + 1) _ (some e) r ?_ ?_ h
              · intro _
                simp [hds]
                omega
              · intro _
                simp [hds]
                omega
          · rw [if_neg h3] at h
            cases h
            by_cases hds : ctxReady env.doneTime (t + 1) = true
            · simp [hds]
              omega
            · simp [hds]
              omega

/-- C6: a context already done at loop entry yields the canceled return with
zero Notify calls (the non-blocking check runs before any tick), and for
every environment, schedule and fuel the number of Notify calls exceeds the
number of attempts completed before the context became done by at most one
(the select race can let one tick through, after which the top check returns
before another Notify). -/
theorem retry_done_check_bounds (env : RetryEnv) (alerts sent : List Alert) (fuel : Nat) :
    (env.doneTime = some 0 →
        retryLoop env alerts sent (fuel + 1) 0 0 0 0 none
          = some ⟨[], some (.wrap (canceledMsg env.groupName env.integName 1) .ctxErr),
              0, 0, sent⟩)
      ∧ (∀ r, retryLoop env alerts sent fuel 0 0 0 0 none = some r →
          r.calls ≤ r.callsBefore + 1) := by
  constructor
  · intro hd
    rw [retryLoop]
    have hready : ctxReady env.doneTime 0 = true := by simp [ctxReady, hd]
    rw [if_pos hready]
    rfl
  · intro r h
    exact retryLoop_calls_bound_aux env alerts sent fuel 0 0 0 0 none r
      (fun _ => rfl) (fun _ => by omega) h

/-- C6, witness: the done-at-entry loop returns canceled with zero calls,
and a one-call success run satisfies the bound. -/
theorem retry_done_check_bounds_witness :
    retryLoop { envW with doneTime := some 0 } [alertW] [alertW] 3 0 0 0 0 none
        = some ⟨[], some (.wrap (canceledMsg "ops" "webhook[0]" 1) .ctxErr), 0, 0, [alertW]⟩
      ∧ (1 : Nat) ≤ 1 + 1 :=
  ⟨(retry_done_check_bounds { envW with doneTime := some 0 } [alertW] [alertW] 2).1 rfl,
   (retry_done_check_bounds envW [alertW] [alertW] 1).2 ⟨[alertW], none, 1, 1, [alertW]⟩ rfl⟩

theorem retryLoop_shape_aux (env : RetryEnv) (alerts sent : List Alert) :
    ∀ fuel t i c cb iErr r,
      i = c →
      ((iErr = none ∧ c = 0) ∨
        (∃ e, iErr = some e ∧ 1 ≤ c ∧ (env.notify sent (c - 1)).2 = some e)) →
      retryLoop env alerts sent fuel t i c cb iErr = some r →
      (r.err = none ∧ r.alerts = alerts ∧ 1 ≤ r.calls
          ∧ (env.notify sent (r.calls - 1)).2 = none)
        ∨ (∃ e, r.alerts = alerts
            ∧ r.err = some (.wrap (unrecovMsg env.groupName env.integName r.calls) e)
            ∧ env.notify sent (r.calls - 1) = (false, some e))
        ∨ (∃ cause, r.alerts = []
            ∧ r.err = some (.wrap (canceledMsg env.groupName env.integName (r.calls + 1))
                cause)
            ∧ ((r.calls = 0 ∧ cause = Err.ctxErr)
              ∨ (1 ≤ r.calls ∧ (env.notify sent (r.calls - 1)).2 = some cause))) := by
  intro fuel
  induction fuel with
  | zero =>
    intro t i c cb iErr r _ _ h
    simp [retryLoop] at h
  | succ n ih =>
    intro t i c cb iErr r hic hist h
    subst hic
    rw [retryLoop] at h
    by_cases h1 : ctxReady env.doneTime t = true
    · rw [if_pos h1] at h
      cases h
      refine Or.inr (Or.inr ⟨iErr.getD .ctxErr, rfl, rfl, ?_⟩)
      rcases hist with ⟨hn0, hc0⟩ | ⟨e, he, hge, hne⟩
      · subst hn0
        exact Or.inl ⟨hc0, rfl⟩
      · subst he
        exact Or.inr ⟨hge, by simpa using hne⟩
    · rw [if_neg h1] at h
      dsimp only at h
      by_cases h2 : (ctxReady env.doneTime (t + 1) && env.choice (i + 1)) = true
      · rw [if_pos h2] at h
        cases h
        refine Or.inr (Or.inr ⟨iErr.getD .ctxErr, rfl, rfl, ?_⟩)
        rcases hist with ⟨hn0, hc0⟩ | ⟨e, he, hge, hne⟩
        · subst hn0
          exact Or.inl ⟨hc0, rfl⟩
        · subst he
          exact Or.inr ⟨hge, by simpa using hne⟩
      · rw [if_neg h2] at h
        rcases hn : env.notify sent i with ⟨retry, oe⟩
        rw [hn] at h
        rcases oe with _ | e
        · dsimp only at h
          cases h
          refine Or.inl ⟨rfl, rfl, by show 1 ≤ i + 1; omega, ?_⟩
          simpa [Nat.add_sub_cancel] using congrArg Prod.snd hn
        · dsimp only at h
          by_cases h3 : retry = true
          · rw [if_pos h3] at h
            subst h3
            refine ih (t + 2) (i + 1) (i + 1) _ (some e) r rfl ?_ h
            refine Or.inr ⟨e, rfl, by omega, ?_⟩
            simpa [Nat.add_sub_cancel] using congrArg Prod.snd hn
          · rw [if_neg h3] at h
            cases h
            have h3' : retry = false := by
              cases retry
              · rfl
              · exact absurd rfl h3
            subst h3'
            refine Or.inr (Or.inl ⟨e, rfl, rfl, ?_⟩)
            simpa [Nat.add_sub_cancel] using hn

/-- C7: the retry loop returns in exactly three shapes — (i) Notify
succeeded: the input alert list with a nil error; (ii) Notify returned an
unrecoverable error e: the input alert list with e wrapped in the
"unrecoverable" message naming the attempt count; (iii) the context became
done: a nil alert list with a wrapped "canceled after N attempts" error
whose cause is the last observed integration error, or ctx.Err() when no
call had failed yet. -/
theorem retry_termination_trichotomy (env : RetryEnv) (alerts sent : List Alert)
    (fuel t : Nat) (r : RetryResult)
    (h : retryLoop env alerts sent fuel t 0 0 0 none = some r) :
    (r.err = none ∧ r.alerts = alerts ∧ 1 ≤ r.calls
        ∧ (env.notify sent (r.calls - 1)).2 = none)
      ∨ (∃ e, r.alerts = alerts
          ∧ r.err = some (.wrap (unrecovMsg env.groupName env.integName r.calls) e)
          ∧ env.notify sent (r.calls - 1) = (false, some e))
      ∨ (∃ cause, r.alerts = []
          ∧ r.err = some (.wrap (canceledMsg env.groupName env.integName (r.calls + 1))
              cause)
          ∧ ((r.calls = 0 ∧ cause = Err.ctxErr)
            ∨ (1 ≤ r.calls ∧ (env.notify sent (r.calls - 1)).2 = some cause))) :=
  retryLoop_shape_aux env alerts sent fuel t 0 0 0 none r rfl (Or.inl ⟨rfl, rfl⟩) h

/-- C7, witness: a first-call success run lands in the success shape. -/
theorem retry_termination_trichotomy_witness :
    ((⟨[alertW], none, 1, 1, [alertW]⟩ : RetryResult).err = none
        ∧ (⟨[alertW], none, 1, 1, [alertW]⟩ : RetryResult).alerts = [alertW]
        ∧ 1 ≤ (⟨[alertW], none, 1, 1, [alertW]⟩ : RetryResult).calls
        ∧ (envW.notify [alertW]
            ((⟨[alertW], none, 1, 1, [alertW]⟩ : RetryResult).calls - 1)).2 = none)
      ∨ (∃ e, (⟨[alertW], none, 1, 1, [alertW]⟩ : RetryResult).alerts = [alertW]
          ∧ (⟨[alertW], none, 1, 1, [alertW]⟩ : RetryResult).err
              = some (.wrap (unrecovMsg envW.groupName envW.integName
                  (⟨[alertW], none, 1, 1, [alertW]⟩ : RetryResult).calls) e)
          ∧ envW.notify [alertW]
              ((⟨[alertW], none, 1, 1, [alertW]⟩ : RetryResult).calls - 1) = (false, some e))
      ∨ (∃ cause, (⟨[alertW], none, 1, 1, [alertW]⟩ : RetryResult).alerts = []
          ∧ (⟨[alertW], none, 1, 1, [alertW]⟩ : RetryResult).err
              = some (.wrap (canceledMsg envW.groupName envW.integName
                  ((⟨[alertW], none, 1, 1, [alertW]⟩ : RetryResult).calls + 1)) cause)
          ∧ (((⟨[alertW], none, 1, 1, [alertW]⟩ : RetryResult).calls = 0
                ∧ cause = Err.ctxErr)
            ∨ (1 ≤ (⟨[alertW], none, 1, 1, [alertW]⟩ : RetryResult).calls
                ∧ (envW.notify [alertW]
                    ((⟨[alertW], none, 1, 1, [alertW]⟩ : RetryResult).calls - 1)).2
                  = some cause))) :=
  retry_termination_trichotomy envW [alertW] [alertW] 1 0
    ⟨[alertW], none, 1, 1, [alertW]⟩ rfl
